import Mathlib

/-!
Verification of the NC-CQR forecasting engine of the NO₂ prediction system.

This file gives a shallow embedding, over `ℚ`, of the core numeric code of
the repository (`ml/src/train.py`, `ml/src/predict.py`,
`ml/src/data_processing.py`, `ml/src/reproducibility.py`) and proves or
refutes the spec claims about it.  Machine floats are modelled as rationals;
tensors as lists; the neural network itself, the wind-direction trigonometric
encoding and the fitted scaler transforms are abstracted as function
parameters wherever a claim quantifies over "the trained model".
Definitions whose names start with `spec` are written from the spec text and
compared against the code-derived ones.
-/

/-- Elementwise rectifier `torch.relu`: `max x 0`. -/
def relu (x : ℚ) : ℚ := max x 0

/-- Mean of a list of rationals, as `torch.mean` / `np.mean` on a 1-D tensor
(`0` on the empty list, where torch would give NaN). -/
def listMean (xs : List ℚ) : ℚ := xs.sum / (xs.length : ℚ)

/-! ### Loss functions (train.py:49-102) -/

/-- `quantile_loss` from train.py:49-62: `error = target - output`,
`mean(max((tau - 1) * error, tau * error))`.  `output` and `target` are the
per-sample model outputs and targets of one batch. -/
def quantile_loss (output target : List ℚ) (tau : ℚ) : ℚ :=
  listMean ((target.zip output).map (fun p => max ((tau - 1) * (p.1 - p.2)) (tau * (p.1 - p.2))))

/-- The crossing-penalty term of train.py:97: `mean(relu(lower_pred - upper_pred))`. -/
def crossingPenaltyOf (lowerPred upperPred : List ℚ) : ℚ :=
  listMean ((lowerPred.zip upperPred).map (fun p => relu (p.1 - p.2)))

/-- `non_crossing_quantile_loss` from train.py:65-102, returning the 4-tuple
`(total_loss, loss_lower, loss_upper, crossing_penalty)`. -/
def non_crossing_quantile_loss (lowerPred upperPred target : List ℚ)
    (tauLow tauHigh lambdaPenalty : ℚ) : ℚ × ℚ × ℚ × ℚ :=
  (quantile_loss lowerPred target tauLow + quantile_loss upperPred target tauHigh
      + lambdaPenalty * crossingPenaltyOf lowerPred upperPred,
   quantile_loss lowerPred target tauLow,
   quantile_loss upperPred target tauHigh,
   crossingPenaltyOf lowerPred upperPred)

/-- The batch loss actually minimized by the training loop: train.py:177-180
calls `non_crossing_quantile_loss` with `tau_low=0.025`, `tau_high=0.975` and
the current `lambda_penalty`, and backpropagates the first component. -/
def trainBatchLoss (lowerPred upperPred target : List ℚ) (lambdaPenalty : ℚ) : ℚ :=
  (non_crossing_quantile_loss lowerPred upperPred target 0.025 0.975 lambdaPenalty).1

/-- Spec side (§4.3): `pinball(pred, target, τ) = mean(max((τ-1)·e, τ·e))`
with `e = target - pred`. -/
def specPinball (pred target : List ℚ) (tau : ℚ) : ℚ :=
  listMean ((target.zip pred).map (fun p => max ((tau - 1) * (p.1 - p.2)) (tau * (p.1 - p.2))))

/-- Spec side (§4.3): the penalty summand `mean(relu(lower_raw - upper_raw))`. -/
def specCrossingTerm (lowerRaw upperRaw : List ℚ) : ℚ :=
  listMean ((lowerRaw.zip upperRaw).map (fun p => max (p.1 - p.2) 0))

/-! ### Conformal calibration (train.py:211-252) -/

/-- `torch.quantile` with the default linear interpolation on a 1-D tensor:
sort ascending, take position `q * (n - 1)` and interpolate linearly between
the two neighbouring order statistics. -/
def torchQuantile (xs : List ℚ) (q : ℚ) : ℚ :=
  let ys := List.insertionSort (fun a b : ℚ => a ≤ b) xs
  let n := ys.length
  let p := q * ((n : ℚ) - 1)
  let i := (⌊p⌋).toNat
  let lo := ys.getD i 0
  let hi := ys.getD (i + 1) lo
  lo + (p - (i : ℚ)) * (hi - lo)

/-- Conformity scores of train.py:224-227: for each calibration pair
`(x, y)`, `max(lower_raw(x) - y, y - upper_raw(x))`.  The trained network is
abstracted as `net : α → ℚ × ℚ` returning `(lower_raw, upper_raw)`. -/
def conformityScores {α : Type} (net : α → ℚ × ℚ) (calib : List (α × ℚ)) : List ℚ :=
  calib.map (fun p => max ((net p.1).1 - p.2) (p.2 - (net p.1).2))

/-- The calibration offset `Q_hat` of train.py:213-234: `alpha = 0.05`,
`quantile_level = min(1, (1 - alpha) * (n + 1) / n)` with `n` the
calibration-set size, and `Q_hat = torch.quantile(scores, quantile_level)`. -/
def calibrationQ {α : Type} (net : α → ℚ × ℚ) (calib : List (α × ℚ)) : ℚ :=
  let alpha : ℚ := 0.05
  let n : ℕ := calib.length
  let quantileLevel : ℚ := min 1 ((1 - alpha) * ((n : ℚ) + 1) / (n : ℚ))
  torchQuantile (conformityScores net calib) quantileLevel

/-- The calibrated interval applied at inference time (predict.py:85-86) and
at evaluation time (train.py:275-276): `[lower_raw - Q, upper_raw + Q]`. -/
def calibratedInterval (lowerRaw upperRaw Q : ℚ) : ℚ × ℚ :=
  (lowerRaw - Q, upperRaw + Q)

/-- Spec side (§4.4): the per-sample nonconformity score
`s_i = max(lower_raw(x_i) - y_i, y_i - upper_raw(x_i))`. -/
def specNonconformityScore {α : Type} (net : α → ℚ × ℚ) (x : α) (y : ℚ) : ℚ :=
  max ((net x).1 - y) (y - (net x).2)

/-- Spec side (§4.4): the finite-sample-corrected quantile level
`q = min(1, (1 - α)(n + 1)/n)`. -/
def specQuantileLevel (alpha : ℚ) (n : ℕ) : ℚ :=
  min 1 ((1 - alpha) * ((n : ℚ) + 1) / (n : ℚ))

/-- Spec side (§4.4): `Q = quantile(scores, q)` at `α = 0.05`. -/
def specCalibrationQ {α : Type} (net : α → ℚ × ℚ) (calib : List (α × ℚ)) : ℚ :=
  torchQuantile (calib.map (fun p => specNonconformityScore net p.1 p.2))
    (specQuantileLevel 0.05 calib.length)

/-- Spec side (§4.4): the final interval `[lower_raw(x) - Q, upper_raw(x) + Q]`. -/
def specFinalInterval {α : Type} (net : α → ℚ × ℚ) (Q : ℚ) (x : α) : ℚ × ℚ :=
  ((net x).1 - Q, (net x).2 + Q)

/-! ### The λ-penalty across the training loop (train.py:159-210) -/

/-- Initial crossing-penalty weight, train.py:160: `lambda_penalty = 1.0`. -/
def lambdaInit : ℚ := 1.0

/-- The evolution of `lambda_penalty` over one epoch of the training loop.
The loop body (train.py:162-209) reads `lambda_penalty` when computing the
batch loss (line 179) and, at a logging epoch, computes and prints the
average crossing penalty (lines 194-209); no statement in the loop assigns
`lambda_penalty`, so it is returned unchanged whatever `avgCrossing` is. -/
def lambdaStep (lambdaPenalty : ℚ) (avgCrossing : ℚ) : ℚ := lambdaPenalty

/-- The value of `lambda_penalty` after a training run whose epochs produced
the given sequence of average crossing penalties. -/
def lambdaAfterTraining (avgCrossings : List ℚ) : ℚ :=
  avgCrossings.foldl lambdaStep lambdaInit

/-- Spec side (§4.3 / §9, modelling the claimed adaptation rule): multiply by
1.5 when the mean crossing penalty exceeds 0.2, decay by 0.9 floored at 0.1
when it falls below 0.01, otherwise unchanged. -/
def specLambdaStep (lambdaPenalty avgCrossing : ℚ) : ℚ :=
  if 0.2 < avgCrossing then lambdaPenalty * 1.5
  else if avgCrossing < 0.01 then max (lambdaPenalty * 0.9) 0.1
  else lambdaPenalty

/-! ### Batch processing in one epoch (train.py:170-192) -/

/-- The inner batch loop of one epoch.  For every batch delivered by the
loader the code runs forward, loss, backward and an optimizer step and then
increments `num_batches`; there is no batch-size check, so every batch is
processed unconditionally.  The whole numeric step (forward + backward +
optimizer update) is abstracted as `optStep` on an opaque optimizer/model
state `σ`; the result pairs the final state with `num_batches`. -/
def runEpochBatches {σ β : Type} (optStep : σ → List β → σ) (init : σ)
    (batches : List (List β)) : σ × ℕ :=
  batches.foldl (fun acc batch => (optStep acc.1 batch, acc.2 + 1)) (init, 0)

/-- Spec side (§4.3 / §7, modelling the claimed behaviour): batches with
fewer than 2 rows are skipped (no optimizer step) and the number of skipped
batches is counted separately; result is `(state, num_batches, num_skipped)`. -/
def specEpochBatches {σ β : Type} (optStep : σ → List β → σ) (init : σ)
    (batches : List (List β)) : σ × ℕ × ℕ :=
  batches.foldl
    (fun acc batch =>
      if batch.length < 2 then (acc.1, acc.2.1, acc.2.2 + 1)
      else (optStep acc.1 batch, acc.2.1 + 1, acc.2.2))
    (init, 0, 0)

/-! ### Feature table and scaler fitting (data_processing.py:12-61, train.py:350-417) -/

/-- One hourly observation row, the columns used by the engine
(`no2, temperature, humidity, wind_speed, pressure, wind_direction`). -/
structure ObsRow where
  no2 : ℚ
  temperature : ℚ
  humidity : ℚ
  wind_speed : ℚ
  pressure : ℚ
  wind_direction : ℚ
deriving DecidableEq

/-- The lag-dropping of data_processing.py:36-40: `no2.shift(1)` and
`no2.shift(2)` put NaNs in the first two rows and `dropna` removes exactly
those (the embedding's tables carry no other missing values). -/
def lagDropped (df : List ObsRow) : List ObsRow := df.drop 2

/-- A fitted `sklearn.preprocessing.StandardScaler`, determined by the column
statistics it stores: `mean_` and the population variance `var_`
(its `scale_` is `sqrt(var_)`, a function of `var_`). -/
structure FittedScaler where
  mean : ℚ
  var : ℚ
deriving DecidableEq

/-- `StandardScaler().fit` on one column: mean and population variance. -/
def fitScaler (xs : List ℚ) : FittedScaler :=
  { mean := listMean xs, var := listMean (xs.map (fun x => (x - listMean xs) ^ 2)) }

/-- The per-feature scaler dictionary produced by data_processing.py:51-55,
one fitted scaler per continuous feature column. -/
structure ScalerSet where
  temperature : FittedScaler
  humidity : FittedScaler
  wind_speed : FittedScaler
  pressure : FittedScaler
deriving DecidableEq

/-- Fitting the four scalers on a list of (already lag-dropped) rows. -/
def fitScalersOnRows (rows : List ObsRow) : ScalerSet :=
  { temperature := fitScaler (rows.map (fun r => r.temperature))
    humidity := fitScaler (rows.map (fun r => r.humidity))
    wind_speed := fitScaler (rows.map (fun r => r.wind_speed))
    pressure := fitScaler (rows.map (fun r => r.pressure)) }

/-- The scaler-fitting part of `prepare_nc_cqr_data` (data_processing.py:12-61):
lag features are added, the first two rows drop out, and each scaler is fit on
the entire remaining column. -/
def prepareScalers (df : List ObsRow) : ScalerSet := fitScalersOnRows (lagDropped df)

/-- The ScalerSet used by `train_full_pipeline` (train.py:374-394): the
pipeline calls `prepare_nc_cqr_data(df)` on the full table (line 378) and
splits into train/calib/test only afterwards (lines 381-394), so the scalers
are fit on all rows. -/
def pipelineScalers (df : List ObsRow) : ScalerSet := prepareScalers df

/-- The training-split size of train.py:382: `n_train = int(n_samples * train_ratio)`
where `n_samples` counts the lag-dropped feature rows. -/
def pipelineNTrain (df : List ObsRow) (trainFrac : ℚ) : ℕ :=
  (⌊((lagDropped df).length : ℚ) * trainFrac⌋).toNat

/-! ### Autoregressive forecaster (predict.py:22-107) -/

/-- The hour of a timestamp, timestamps being modelled as whole hours on an
absolute axis, so that `pred_time = t0 + i` hours has `hour = (t0 + i) % 24`. -/
def hourOf (t : ℕ) : ℕ := t % 24

/-- The day of week of a whole-hour timestamp (0 = Monday as in pandas,
up to the fixed epoch alignment of the hour axis). -/
def dayOfWeekOf (t : ℕ) : ℕ := (t / 24) % 7

/-- predict.py:66: `is_weekend = int(dayofweek in [5, 6])`. -/
def isWeekendOf (t : ℕ) : Bool := dayOfWeekOf t == 5 || dayOfWeekOf t == 6

/-- The 11-dimensional feature vector of predict.py:55-75, in training
feature order. -/
structure Features where
  temperature : ℚ
  humidity : ℚ
  wind_speed : ℚ
  pressure : ℚ
  wind_sin : ℚ
  wind_cos : ℚ
  no2_lag1 : ℚ
  no2_lag2 : ℚ
  hour : ℚ
  day_of_week : ℚ
  is_weekend : ℚ

/-- The four persisted scaler transforms, abstracted as functions
(`scalers[col].transform` in predict.py:56-59). -/
structure ScalerFuns where
  temperature : ℚ → ℚ
  humidity : ℚ → ℚ
  wind_speed : ℚ → ℚ
  pressure : ℚ → ℚ

/-- Feature construction of one forecast step (predict.py:55-76): scaled
weather of the `latest` history row, trigonometric wind encoding (`wsin`,
`wcos` abstract `sin∘radians` and `cos∘radians`), NO₂ lags from the two
history rows, and the time flags of the forecast timestamp. -/
def buildFeatures (sc : ScalerFuns) (wsin wcos : ℚ → ℚ) (latest prev : ObsRow)
    (predTime : ℕ) : Features :=
  { temperature := sc.temperature latest.temperature
    humidity := sc.humidity latest.humidity
    wind_speed := sc.wind_speed latest.wind_speed
    pressure := sc.pressure latest.pressure
    wind_sin := wsin latest.wind_direction
    wind_cos := wcos latest.wind_direction
    no2_lag1 := latest.no2
    no2_lag2 := prev.no2
    hour := (hourOf predTime : ℚ)
    day_of_week := (dayOfWeekOf predTime : ℚ)
    is_weekend := if isWeekendOf predTime then 1 else 0 }

/-- One emitted forecast record (predict.py:89-94). -/
structure PredRecord where
  observation_time : ℕ
  prediction : ℚ
  lower_bound : ℚ
  upper_bound : ℚ
deriving DecidableEq

/-- The loop of predict.py:49-105 from iteration `i` on, with `n` iterations
left.  The rolling history is the pair `(prev, latest)` (= `history.iloc[-2]`,
`history.iloc[-1]`); each iteration predicts at `t0 + (i + 1)`, applies the
calibration offset, emits the record, and rolls the history to
`(latest, latest with no2 := mid_point)` — exactly the `new_row` of
predict.py:97-105, which copies every weather field from `latest`. -/
def forecastFrom (net : Features → ℚ × ℚ) (sc : ScalerFuns) (wsin wcos : ℚ → ℚ)
    (Q : ℚ) (t0 : ℕ) : ℕ → ObsRow → ObsRow → ℕ → List PredRecord
  | _, _, _, 0 => []
  | i, prev, latest, n + 1 =>
    let out := net (buildFeatures sc wsin wcos latest prev (t0 + (i + 1)))
    let lowerBound := out.1 - Q
    let upperBound := out.2 + Q
    let midPoint := (lowerBound + upperBound) / 2
    { observation_time := t0 + (i + 1), prediction := midPoint,
      lower_bound := lowerBound, upper_bound := upperBound }
      :: forecastFrom net sc wsin wcos Q t0 (i + 1) latest
          { latest with no2 := midPoint } n

/-- `predict_future_nc_cqr` (predict.py:22-107): the history is reduced to
its last two rows `(prev, latest)`, `t0` is the last observed timestamp, and
the loop above runs for `steps` iterations. -/
def predict_future_nc_cqr (net : Features → ℚ × ℚ) (sc : ScalerFuns)
    (wsin wcos : ℚ → ℚ) (Q : ℚ) (prev latest : ObsRow) (t0 : ℕ) (steps : ℕ) :
    List PredRecord :=
  forecastFrom net sc wsin wcos Q t0 0 prev latest steps

/-- Spec side (§4.5 / claim C7): the feature vector of step `i` as the claim
describes it — the weather columns of the fixed last-observed row `w`, the
rolling lags `lag1`, `lag2`, and the time flags of the forecast timestamp. -/
def specFeatures (sc : ScalerFuns) (wsin wcos : ℚ → ℚ) (w : ObsRow)
    (lag1 lag2 : ℚ) (predTime : ℕ) : Features :=
  { temperature := sc.temperature w.temperature
    humidity := sc.humidity w.humidity
    wind_speed := sc.wind_speed w.wind_speed
    pressure := sc.pressure w.pressure
    wind_sin := wsin w.wind_direction
    wind_cos := wcos w.wind_direction
    no2_lag1 := lag1
    no2_lag2 := lag2
    hour := (hourOf predTime : ℚ)
    day_of_week := (dayOfWeekOf predTime : ℚ)
    is_weekend := if isWeekendOf predTime then 1 else 0 }

/-- Spec side (§4.5 / claim C7): the rollout as the claim describes it.
Step `i` (1-based `i + 1` here since `i` starts at 0) uses the flags of
`t0 + (i + 1)`, the fixed weather row `w` at every step, and lags
`(lag1, lag2)`; after emitting, the predicted midpoint becomes the new
`lag1` and the previous `lag1` becomes `lag2`. -/
def specForecastFrom (net : Features → ℚ × ℚ) (sc : ScalerFuns)
    (wsin wcos : ℚ → ℚ) (Q : ℚ) (w : ObsRow) (t0 : ℕ) :
    ℕ → ℚ → ℚ → ℕ → List PredRecord
  | _, _, _, 0 => []
  | i, lag1, lag2, n + 1 =>
    let out := net (specFeatures sc wsin wcos w lag1 lag2 (t0 + (i + 1)))
    let lowerBound := out.1 - Q
    let upperBound := out.2 + Q
    let midPoint := (lowerBound + upperBound) / 2
    { observation_time := t0 + (i + 1), prediction := midPoint,
      lower_bound := lowerBound, upper_bound := upperBound }
      :: specForecastFrom net sc wsin wcos Q w t0 (i + 1) midPoint lag1 n

/-- The point-forecast trajectory with the symmetric `±Q` widening cancelled:
each step reports `(lower_raw + upper_raw) / 2` and rolls that midpoint into
the history.  No `Q` occurs. -/
def midForecastFrom (net : Features → ℚ × ℚ) (sc : ScalerFuns)
    (wsin wcos : ℚ → ℚ) (t0 : ℕ) : ℕ → ObsRow → ObsRow → ℕ → List ℚ
  | _, _, _, 0 => []
  | i, prev, latest, n + 1 =>
    let out := net (buildFeatures sc wsin wcos latest prev (t0 + (i + 1)))
    let midPoint := (out.1 + out.2) / 2
    midPoint :: midForecastFrom net sc wsin wcos t0 (i + 1) latest
      { latest with no2 := midPoint } n

/-- Two observation rows with the same weather columns (all columns except
`no2`). -/
def sameWeather (a b : ObsRow) : Prop :=
  a.temperature = b.temperature ∧ a.humidity = b.humidity ∧
    a.wind_speed = b.wind_speed ∧ a.pressure = b.pressure ∧
    a.wind_direction = b.wind_direction

/-! ### Reproducibility context (reproducibility.py:14-162) -/

/-- The global random state of the process: the four RNG sources of
reproducibility.py (Python `random`, NumPy, Torch CPU, the per-CUDA-device
states) plus the cudnn flag and the `CUBLAS_WORKSPACE_CONFIG` environment
variable that the context also touches.  The opaque internal RNG buffers are
modelled as integer lists (CPython `random.getstate()` is a nonempty tuple,
NumPy state a nonempty tuple, the torch states byte tensors). -/
structure RNGState where
  pythonState : List Int
  numpyState : List Int
  torchState : List Int
  cudaStates : List (List Int)
  cudnnDeterministic : Bool
  cublasEnv : Option String
deriving DecidableEq

/-- The saved fields of `ReproducibilityContext.__init__` (reproducibility.py:
114-120), all initialized to `None` and filled by `__enter__`. -/
structure RNGSnapshot where
  originalPythonState : Option (List Int)
  originalNumpyState : Option (List Int)
  originalTorchState : Option (List Int)
  originalCudaState : Option (List (List Int))
  originalCudnnDeterministic : Option Bool
  originalCudaEnv : Option String
deriving DecidableEq

/-- The value written into `CUBLAS_WORKSPACE_CONFIG` by
`set_deterministic_seeds` (reproducibility.py:47). -/
def cublasConfigValue : String := ":4096:8"

/-- `set_deterministic_seeds` (reproducibility.py:14-60): reseed the Python,
NumPy and Torch CPU generators from `seed`; when CUDA is available also
reseed every device and set the cudnn/CUBLAS determinism knobs.  The seeding
maps from a seed to fresh internal states are abstract parameters `pyF`,
`npF`, `tF`, `cF`. -/
def set_deterministic_seeds (cudaAvailable ensureDeterministic : Bool)
    (pyF npF tF : ℕ → List Int) (cF : ℕ → List (List Int)) (seed : ℕ)
    (s : RNGState) : RNGState :=
  let s1 := { s with pythonState := pyF seed, numpyState := npF seed,
                     torchState := tF seed }
  if cudaAvailable then
    { s1 with cudaStates := cF seed,
              cudnnDeterministic := ensureDeterministic,
              cublasEnv := if ensureDeterministic then some cublasConfigValue
                           else s1.cublasEnv }
  else s1

/-- `ReproducibilityContext.__enter__` (reproducibility.py:122-140): snapshot
the current global states (the CUDA-related fields only when CUDA is
available), then install the city-specific deterministic seed. -/
def contextEnter (cudaAvailable ensureDeterministic : Bool)
    (pyF npF tF : ℕ → List Int) (cF : ℕ → List (List Int)) (citySeed : ℕ)
    (s : RNGState) : RNGSnapshot × RNGState :=
  let snap : RNGSnapshot :=
    { originalPythonState := some s.pythonState
      originalNumpyState := some s.numpyState
      originalTorchState := some s.torchState
      originalCudaState := if cudaAvailable then some s.cudaStates else none
      originalCudnnDeterministic :=
        if cudaAvailable then some s.cudnnDeterministic else none
      originalCudaEnv := if cudaAvailable then s.cublasEnv else none }
  (snap, set_deterministic_seeds cudaAvailable ensureDeterministic
    pyF npF tF cF citySeed s)

/-- `ReproducibilityContext.__exit__` (reproducibility.py:142-162), guards
included: `if self.original_python_state:` is tuple truthiness (nonempty),
the torch state is compared with `is not None`, and the environment variable
is restored when its saved value is truthy and deleted otherwise. -/
def contextExit (cudaAvailable : Bool) (snap : RNGSnapshot) (s : RNGState) :
    RNGState :=
  let s1 := match snap.originalPythonState with
    | some ps => if ps.isEmpty then s else { s with pythonState := ps }
    | none => s
  let s2 := match snap.originalNumpyState with
    | some ns => if ns.isEmpty then s1 else { s1 with numpyState := ns }
    | none => s1
  let s3 := match snap.originalTorchState with
    | some ts => { s2 with torchState := ts }
    | none => s2
  if cudaAvailable then
    let s4 := match snap.originalCudaState with
      | some cs => if cs.isEmpty then s3 else { s3 with cudaStates := cs }
      | none => s3
    let s5 := match snap.originalCudnnDeterministic with
      | some b => { s4 with cudnnDeterministic := b }
      | none => s4
    match snap.originalCudaEnv with
    | some e =>
      if e.isEmpty then
        (if s5.cublasEnv.isSome then { s5 with cublasEnv := none } else s5)
      else { s5 with cublasEnv := some e }
    | none => if s5.cublasEnv.isSome then { s5 with cublasEnv := none } else s5
  else s3

/-- A full `with ReproducibilityContext(...)` block: enter, run the body,
exit.  `body` is the entire effect of the block on the global random state;
Python calls `__exit__` on the state at the point of a raised exception just
as on normal completion, so a raising body is the same function shape with
`body` returning the state at the raise point. -/
def runWithContext (cudaAvailable ensureDeterministic : Bool)
    (pyF npF tF : ℕ → List Int) (cF : ℕ → List (List Int)) (citySeed : ℕ)
    (body : RNGState → RNGState) (s : RNGState) : RNGState :=
  let es := contextEnter cudaAvailable ensureDeterministic pyF npF tF cF
    citySeed s
  contextExit cudaAvailable es.1 (body es.2)

/-! ### Model store (train.py:293-347) -/

/-- One module of `QuantileNet.shared_layers` as built by train.py:29-39:
for each hidden width a `Linear(prev, h)`, a `ReLU()` and a `BatchNorm1d(h)`. -/
inductive SharedLayer where
  | linear (inFeatures outFeatures : ℕ)
  | reluLayer
  | batchNorm (numFeatures : ℕ)
deriving DecidableEq

/-- The `shared_layers` module list of `QuantileNet.__init__` (train.py:29-39). -/
def mkSharedLayers (prevDim : ℕ) : List ℕ → List SharedLayer
  | [] => []
  | h :: t => SharedLayer.linear prevDim h :: SharedLayer.reluLayer ::
      SharedLayer.batchNorm h :: mkSharedLayers h t

/-- A `QuantileNet` as the model store sees it: its constructor arguments
(`input_dim`, `hidden_dims`) and its `state_dict()`, the named tensors of
every parameter and buffer (weights, biases, batch-norm running statistics),
flattened to rational lists. -/
structure QuantileNetModel where
  inputDim : ℕ
  hiddenDims : List ℕ
  stateDict : List (String × List ℚ)
deriving DecidableEq

/-- The `model.shared_layers` of a `QuantileNetModel`. -/
def sharedLayersOf (m : QuantileNetModel) : List SharedLayer :=
  mkSharedLayers m.inputDim m.hiddenDims

/-- The `.in_features` attribute: defined on `Linear` modules only
(an access on `ReLU`/`BatchNorm1d` raises `AttributeError`). -/
def inFeaturesOf : SharedLayer → Option ℕ
  | SharedLayer.linear i _ => some i
  | _ => none

/-- The `isinstance(layer, nn.Linear)`-filtered `.out_features` used by
train.py:315 to recover `hidden_dims`. -/
def linearOutFeatures : SharedLayer → Option ℕ
  | SharedLayer.linear _ o => some o
  | _ => none

/-- The checkpoint dictionary of train.py:310-316, generic in the scaler
payload `S` stored under the key `scalers`. -/
structure Checkpoint (S : Type) where
  model_state_dict : List (String × List ℚ)
  Q : ℚ
  scalers : S
  input_dim : ℕ
  hidden_dims : List ℕ

/-- `save_model` (train.py:293-321): builds the checkpoint from the model
state dict, `Q`, the scalers, `model.shared_layers[0].in_features` and the
`out_features` of the `Linear` layers of `shared_layers`.  `none` models the
`IndexError`/`AttributeError` paths when `shared_layers` is empty or its
first module is not a `Linear`. -/
def save_model {S : Type} (m : QuantileNetModel) (Q : ℚ) (scalers : S) :
    Option (Checkpoint S) :=
  match (sharedLayersOf m).head? with
  | none => none
  | some layer =>
    match inFeaturesOf layer with
    | none => none
    | some d =>
      some { model_state_dict := m.stateDict, Q := Q, scalers := scalers,
             input_dim := d,
             hidden_dims := (sharedLayersOf m).filterMap linearOutFeatures }

/-- `load_model` (train.py:324-347): reconstruct a fresh
`QuantileNet(input_dim, hidden_dims)` (its freshly initialized state dict is
the abstract `initSD`), then `load_state_dict` overwrites every parameter and
buffer with the checkpoint's, and return `(model, Q, scalers)`. -/
def load_model {S : Type} (initSD : ℕ → List ℕ → List (String × List ℚ))
    (c : Checkpoint S) : QuantileNetModel × ℚ × S :=
  let fresh : QuantileNetModel :=
    { inputDim := c.input_dim, hiddenDims := c.hidden_dims,
      stateDict := initSD c.input_dim c.hidden_dims }
  ({ fresh with stateDict := c.model_state_dict }, c.Q, c.scalers)

/-! ## Helper lemmas -/

theorem foldl_lambdaStep (cs : List ℚ) : ∀ lam : ℚ, cs.foldl lambdaStep lam = lam := by
  induction cs with
  | nil => intro lam; rfl
  | cons c cs ih => intro lam; simpa [lambdaStep] using ih lam

theorem foldl_step_count {σ β : Type} (optStep : σ → List β → σ) :
    ∀ (bs : List (List β)) (p : σ × ℕ),
      bs.foldl (fun acc batch => (optStep acc.1 batch, acc.2 + 1)) p
        = (bs.foldl optStep p.1, p.2 + bs.length) := by
  intro bs
  induction bs with
  | nil => intro p; simp
  | cons b bs ih =>
    intro p
    rw [List.foldl_cons, ih, List.foldl_cons, List.length_cons]
    congr 1
    omega

/-! ## Claim theorems -/

/-- Claim C1, counterexample: the calibrated model whose raw heads output
`(lower_raw, upper_raw) = (10, 0)` on every input, with calibration offset
`Q = 1`, emits on a one-step forecast an interval with
`lower_bound = 9 > 1 = upper_bound`: the claim that `lower_bound ≤
upper_bound` holds for every input even when the raw outputs cross is false. -/
theorem C1_counterexample :
    predict_future_nc_cqr (fun _ => (10, 0))
        ⟨fun x => x, fun x => x, fun x => x, fun x => x⟩ (fun x => x) (fun x => x)
        1 ⟨0, 0, 0, 0, 0, 0⟩ ⟨0, 0, 0, 0, 0, 0⟩ 0 1
      = [{ observation_time := 1, prediction := 5, lower_bound := 9,
           upper_bound := 1 }] ∧
      ¬ ((9 : ℚ) ≤ 1) := by
  constructor
  · show forecastFrom _ _ _ _ _ _ 0 _ _ (0 + 1) = _
    simp only [forecastFrom]
    norm_num
  · norm_num

/-- Claim C1 (amended): with `lower_bound = lower_raw - Q` and
`upper_bound = upper_raw + Q`, the emitted interval satisfies
`lower_bound ≤ upper_bound` exactly when the raw crossing does not exceed
`2·Q` (`lower_raw - upper_raw ≤ 2Q`); in particular it holds whenever the
raw outputs do not cross and `Q ≥ 0`, but a crossing larger than `2Q`
produces an inverted interval — the symmetric widening does not repair
arbitrary crossings. -/
theorem C1_interval_monotonicity_iff (lowerRaw upperRaw Q : ℚ) :
    ((calibratedInterval lowerRaw upperRaw Q).1
        ≤ (calibratedInterval lowerRaw upperRaw Q).2)
      ↔ lowerRaw - upperRaw ≤ 2 * Q := by
  show lowerRaw - Q ≤ upperRaw + Q ↔ lowerRaw - upperRaw ≤ 2 * Q
  constructor <;> intro h <;> linarith

/-- Claim C2: on a nonempty calibration set, the calibration offset computed
by train.py:211-252 is the `min(1, (1-α)(n+1)/n)`-quantile (α = 0.05) of the
per-sample nonconformity scores `max(lower_raw(x_i) - y_i, y_i -
upper_raw(x_i))`, and the final interval for any input `x` is
`[lower_raw(x) - Q, upper_raw(x) + Q]`, as the spec states. -/
theorem C2_conformal_calibration {α : Type} (net : α → ℚ × ℚ)
    (calib : List (α × ℚ)) (h : calib ≠ []) (x : α) :
    calibrationQ net calib = specCalibrationQ net calib ∧
      calibratedInterval (net x).1 (net x).2 (calibrationQ net calib)
        = specFinalInterval net (specCalibrationQ net calib) x := by
  refine ⟨rfl, ?_⟩
  rfl

/-- Witness for C2 at a concrete network and two-point calibration set. -/
theorem C2_conformal_calibration_witness :
    ([((0 : ℚ), (0 : ℚ)), (2, 2)] ≠ ([] : List (ℚ × ℚ))) ∧
      (calibrationQ (fun x : ℚ => (x - 1, x + 1)) [(0, 0), (2, 2)]
          = specCalibrationQ (fun x : ℚ => (x - 1, x + 1)) [(0, 0), (2, 2)] ∧
        calibratedInterval ((fun x : ℚ => (x - 1, x + 1)) 5).1
            ((fun x : ℚ => (x - 1, x + 1)) 5).2
            (calibrationQ (fun x : ℚ => (x - 1, x + 1)) [(0, 0), (2, 2)])
          = specFinalInterval (fun x : ℚ => (x - 1, x + 1))
              (specCalibrationQ (fun x : ℚ => (x - 1, x + 1)) [(0, 0), (2, 2)]) 5) :=
  ⟨by decide, C2_conformal_calibration (fun x : ℚ => (x - 1, x + 1))
    [(0, 0), (2, 2)] (by decide) 5⟩

/-- Claim C3: the loss backpropagated per batch by the training loop equals
`pinball(lower_raw, y, 0.025) + pinball(upper_raw, y, 0.975) +
λ·mean(relu(lower_raw - upper_raw))` with the spec's pinball loss
`mean(max((τ-1)·e, τ·e))`, `e = target - pred`. -/
theorem C3_training_objective (lowerPred upperPred target : List ℚ) (lam : ℚ) :
    trainBatchLoss lowerPred upperPred target lam
      = specPinball lowerPred target 0.025 + specPinball upperPred target 0.975
        + lam * specCrossingTerm lowerPred upperPred := rfl

/-- Claim C4, counterexample: at a logging interval whose mean crossing
penalty is `0.3 > 0.2`, the training loop leaves `lambda_penalty` at its
initial value `1.0` instead of multiplying it by 1.5 — no adaptation code
exists in train.py:159-210, only diagnostic printing. -/
theorem C4_counterexample :
    (0.2 : ℚ) < 3 / 10 ∧ lambdaStep lambdaInit (3 / 10) = 1 ∧
      specLambdaStep lambdaInit (3 / 10) = 1.5 ∧
      lambdaStep lambdaInit (3 / 10) ≠ lambdaInit * 1.5 := by
  norm_num [lambdaStep, specLambdaStep, lambdaInit]

/-- Claim C4 (amended): `lambda_penalty` starts at 1.0 and is never changed:
whatever sequence of per-epoch mean crossing penalties the run produces, the
weight is still 1.0 afterwards; the logging interval only prints warnings. -/
theorem C4_lambda_never_adapted (avgCrossings : List ℚ) :
    lambdaAfterTraining avgCrossings = 1 := by
  have h := foldl_lambdaStep avgCrossings lambdaInit
  rw [lambdaAfterTraining, h]
  norm_num [lambdaInit]

/-- Claim C6, counterexample: an epoch whose only minibatch has a single row.
With an optimizer step that counts its invocations, the code performs one
step and reports `num_batches = 1`: the 1-row batch is processed, not
skipped, while the claimed behaviour performs no step on it and counts one
skip. -/
theorem C6_counterexample :
    ([(5 : ℚ)].length < 2) ∧
      runEpochBatches (fun (s : ℕ) (_ : List ℚ) => s + 1) 0 [[5]] = (1, 1) ∧
      (specEpochBatches (fun (s : ℕ) (_ : List ℚ) => s + 1) 0 [[5]]).1 = 0 := by
  decide

/-- Claim C6 (amended): the training loop performs no batch-size check at
all: every minibatch, those with fewer than 2 rows included, receives a
forward/backward/optimizer step, and `num_batches` counts all of them; there
is no skip path and no skip counter (a 1-row batch reaches batch-norm, which
raises, rather than being skipped). -/
theorem C6_no_batch_skipping {σ β : Type} (optStep : σ → List β → σ)
    (init : σ) (batches : List (List β)) :
    runEpochBatches optStep init batches
      = (batches.foldl optStep init, batches.length) := by
  unfold runEpochBatches
  rw [foldl_step_count]
  simp

/-- Claim C5, counterexample: two five-row tables agreeing on every raw row
feeding the training split (the first three rows, the training portion being
the first `int(3·0.6) = 1` lag-dropped row) but differing in the temperature
of a later (calibration/test) row get different fitted ScalerSets, because
`train_full_pipeline` fits the scalers on the full table before splitting. -/
theorem C5_counterexample :
    pipelineNTrain [⟨0, 0, 0, 0, 0, 0⟩, ⟨0, 0, 0, 0, 0, 0⟩, ⟨0, 0, 0, 0, 0, 0⟩,
        ⟨0, 0, 0, 0, 0, 0⟩, ⟨0, 0, 0, 0, 0, 0⟩] 0.6 = 1 ∧
      pipelineNTrain [⟨0, 0, 0, 0, 0, 0⟩, ⟨0, 0, 0, 0, 0, 0⟩, ⟨0, 0, 0, 0, 0, 0⟩,
        ⟨0, 100, 0, 0, 0, 0⟩, ⟨0, 0, 0, 0, 0, 0⟩] 0.6 = 1 ∧
      ([⟨0, 0, 0, 0, 0, 0⟩, ⟨0, 0, 0, 0, 0, 0⟩, ⟨0, 0, 0, 0, 0, 0⟩,
          ⟨0, 0, 0, 0, 0, 0⟩, ⟨0, 0, 0, 0, 0, 0⟩] : List ObsRow).take 3
        = ([⟨0, 0, 0, 0, 0, 0⟩, ⟨0, 0, 0, 0, 0, 0⟩, ⟨0, 0, 0, 0, 0, 0⟩,
          ⟨0, 100, 0, 0, 0, 0⟩, ⟨0, 0, 0, 0, 0, 0⟩] : List ObsRow).take 3 ∧
      (lagDropped [⟨0, 0, 0, 0, 0, 0⟩, ⟨0, 0, 0, 0, 0, 0⟩, ⟨0, 0, 0, 0, 0, 0⟩,
          ⟨0, 0, 0, 0, 0, 0⟩, ⟨0, 0, 0, 0, 0, 0⟩]).take 1
        = (lagDropped [⟨0, 0, 0, 0, 0, 0⟩, ⟨0, 0, 0, 0, 0, 0⟩, ⟨0, 0, 0, 0, 0, 0⟩,
          ⟨0, 100, 0, 0, 0, 0⟩, ⟨0, 0, 0, 0, 0, 0⟩]).take 1 ∧
      pipelineScalers [⟨0, 0, 0, 0, 0, 0⟩, ⟨0, 0, 0, 0, 0, 0⟩, ⟨0, 0, 0, 0, 0, 0⟩,
          ⟨0, 0, 0, 0, 0, 0⟩, ⟨0, 0, 0, 0, 0, 0⟩]
        ≠ pipelineScalers [⟨0, 0, 0, 0, 0, 0⟩, ⟨0, 0, 0, 0, 0, 0⟩,
          ⟨0, 0, 0, 0, 0, 0⟩, ⟨0, 100, 0, 0, 0, 0⟩, ⟨0, 0, 0, 0, 0, 0⟩] := by
  refine ⟨?_, ?_, rfl, rfl, ?_⟩
  · norm_num [pipelineNTrain, lagDropped]
  · norm_num [pipelineNTrain, lagDropped]
  · norm_num [pipelineScalers, prepareScalers, fitScalersOnRows, fitScaler,
      lagDropped, listMean, ScalerSet.mk.injEq, FittedScaler.mk.injEq]

/-- Claim C5 (amended): the ScalerSet fitted by the training pipeline is a
function of the entire lag-dropped feature table — training, calibration and
test portions alike: two tables with the same lag-dropped rows get the same
ScalerSet, but (by the counterexample) agreement on the training portion
alone does not suffice, since `train_full_pipeline` fits the scalers before
splitting. -/
theorem C5_scalers_depend_on_full_table (df1 df2 : List ObsRow)
    (h : lagDropped df1 = lagDropped df2) :
    pipelineScalers df1 = pipelineScalers df2 := by
  unfold pipelineScalers prepareScalers
  rw [h]

/-- Witness for the amended C5: two tables differing only in a row that the
lag-dropping removes get the identical ScalerSet. -/
theorem C5_scalers_witness :
    lagDropped [⟨1, 2, 3, 4, 5, 6⟩, ⟨0, 0, 0, 0, 0, 0⟩, ⟨7, 8, 9, 1, 2, 3⟩]
        = lagDropped [⟨9, 8, 7, 6, 5, 4⟩, ⟨0, 0, 0, 0, 0, 0⟩, ⟨7, 8, 9, 1, 2, 3⟩] ∧
      pipelineScalers [⟨1, 2, 3, 4, 5, 6⟩, ⟨0, 0, 0, 0, 0, 0⟩, ⟨7, 8, 9, 1, 2, 3⟩]
        = pipelineScalers [⟨9, 8, 7, 6, 5, 4⟩, ⟨0, 0, 0, 0, 0, 0⟩, ⟨7, 8, 9, 1, 2, 3⟩] :=
  ⟨by decide, C5_scalers_depend_on_full_table _ _ (by decide)⟩

theorem forecastFrom_eq_spec (net : Features → ℚ × ℚ) (sc : ScalerFuns)
    (wsin wcos : ℚ → ℚ) (Q : ℚ) (w : ObsRow) (t0 : ℕ) :
    ∀ (n i : ℕ) (prev latest : ObsRow), sameWeather latest w →
      forecastFrom net sc wsin wcos Q t0 i prev latest n
        = specForecastFrom net sc wsin wcos Q w t0 i latest.no2 prev.no2 n := by
  intro n
  induction n with
  | zero => intro i prev latest _; rfl
  | succ n ih =>
    intro i prev latest hw
    obtain ⟨h1, h2, h3, h4, h5⟩ := hw
    have hf : buildFeatures sc wsin wcos latest prev (t0 + (i + 1))
        = specFeatures sc wsin wcos w latest.no2 prev.no2 (t0 + (i + 1)) := by
      simp [buildFeatures, specFeatures, h1, h2, h3, h4, h5]
    simp only [forecastFrom, specForecastFrom, hf]
    congr 1
    exact ih (i + 1) latest _ ⟨h1, h2, h3, h4, h5⟩

theorem forecastFrom_map_prediction (net : Features → ℚ × ℚ) (sc : ScalerFuns)
    (wsin wcos : ℚ → ℚ) (Q : ℚ) (t0 : ℕ) :
    ∀ (n i : ℕ) (prev latest : ObsRow),
      (forecastFrom net sc wsin wcos Q t0 i prev latest n).map
          (fun r => r.prediction)
        = midForecastFrom net sc wsin wcos t0 i prev latest n := by
  intro n
  induction n with
  | zero => intro i prev latest; rfl
  | succ n ih =>
    intro i prev latest
    simp only [forecastFrom, midForecastFrom, List.map_cons]
    have hmid :
        ((net (buildFeatures sc wsin wcos latest prev (t0 + (i + 1)))).1 - Q
            + ((net (buildFeatures sc wsin wcos latest prev (t0 + (i + 1)))).2 + Q)) / 2
          = ((net (buildFeatures sc wsin wcos latest prev (t0 + (i + 1)))).1
              + (net (buildFeatures sc wsin wcos latest prev (t0 + (i + 1)))).2) / 2 := by
      ring
    rw [hmid]
    congr 1
    exact ih (i + 1) latest _

/-- Claim C7: the autoregressive forecaster of predict.py:49-107 coincides,
for every model, scaler set, calibration offset, starting history
`(prev, latest)`, last observed time `t0` and horizon, with the rollout the
claim describes (`specForecastFrom`): step `i` uses as lags the two most
recent values of the rolling sequence (starting `(latest.no2, prev.no2)`,
then predicted midpoints), the time flags of `t0 + i` hours (1-based `i`),
and the weather columns of the last observed row unchanged at every step;
after emitting a record the predicted midpoint becomes the new `lag1` and
the previous `lag1` becomes `lag2`. -/
theorem C7_autoregressive_rollout (net : Features → ℚ × ℚ) (sc : ScalerFuns)
    (wsin wcos : ℚ → ℚ) (Q : ℚ) (prev latest : ObsRow) (t0 steps : ℕ) :
    predict_future_nc_cqr net sc wsin wcos Q prev latest t0 steps
      = specForecastFrom net sc wsin wcos Q latest t0 0 latest.no2 prev.no2
          steps :=
  forecastFrom_eq_spec net sc wsin wcos Q latest t0 steps 0 prev latest
    ⟨rfl, rfl, rfl, rfl, rfl⟩

/-- Claim C10: the point-forecast trajectory of the forecaster does not
depend on the calibration offset: for every `Q` the `prediction` column
equals the `Q`-free midpoint trajectory `(lower_raw + upper_raw) / 2`
(so any two offsets `Q`, `Q'` give identical point forecasts), because the
symmetric widening cancels in the midpoint and only midpoints are fed back
as lags. -/
theorem C10_point_forecast_independent_of_Q (net : Features → ℚ × ℚ)
    (sc : ScalerFuns) (wsin wcos : ℚ → ℚ) (Q Q' : ℚ) (prev latest : ObsRow)
    (t0 steps : ℕ) :
    (predict_future_nc_cqr net sc wsin wcos Q prev latest t0 steps).map
        (fun r => r.prediction)
      = midForecastFrom net sc wsin wcos t0 0 prev latest steps ∧
    (predict_future_nc_cqr net sc wsin wcos Q prev latest t0 steps).map
        (fun r => r.prediction)
      = (predict_future_nc_cqr net sc wsin wcos Q' prev latest t0 steps).map
          (fun r => r.prediction) := by
  have h1 := forecastFrom_map_prediction net sc wsin wcos Q t0 steps 0 prev latest
  have h2 := forecastFrom_map_prediction net sc wsin wcos Q' t0 steps 0 prev latest
  exact ⟨h1, h1.trans h2.symm⟩

/-- Claim C8: the reproducibility context snapshots the Python, NumPy, Torch
CPU and (when CUDA is available) CUDA RNG states on entry, and whatever the
body of the `with` block does to the global random state — Python runs
`__exit__` on the state at an exception just as on normal return, so `body`
ranges over both exit paths — the four RNG components afterwards equal the
components before entry.  The truthiness guards of `__exit__` require the
snapshotted Python and NumPy state tuples to be nonempty (CPython state
tuples always are) and, when CUDA is available, at least one CUDA device
state. -/
theorem C8_rng_state_restored (cudaAvailable ensureDeterministic : Bool)
    (pyF npF tF : ℕ → List Int) (cF : ℕ → List (List Int)) (citySeed : ℕ)
    (body : RNGState → RNGState) (s : RNGState)
    (hpy : s.pythonState ≠ []) (hnp : s.numpyState ≠ [])
    (hcuda : cudaAvailable = true → s.cudaStates ≠ []) :
    (runWithContext cudaAvailable ensureDeterministic pyF npF tF cF citySeed
        body s).pythonState = s.pythonState ∧
    (runWithContext cudaAvailable ensureDeterministic pyF npF tF cF citySeed
        body s).numpyState = s.numpyState ∧
    (runWithContext cudaAvailable ensureDeterministic pyF npF tF cF citySeed
        body s).torchState = s.torchState ∧
    (cudaAvailable = true →
      (runWithContext cudaAvailable ensureDeterministic pyF npF tF cF citySeed
        body s).cudaStates = s.cudaStates) := by
  have hpy' : s.pythonState.isEmpty = false := by
    cases hq : s.pythonState with
    | nil => exact absurd hq hpy
    | cons a l => rfl
  have hnp' : s.numpyState.isEmpty = false := by
    cases hq : s.numpyState with
    | nil => exact absurd hq hnp
    | cons a l => rfl
  unfold runWithContext contextEnter contextExit
  cases cudaAvailable with
  | false =>
    simp [hpy', hnp']
  | true =>
    have hc' : s.cudaStates.isEmpty = false := by
      cases hq : s.cudaStates with
      | nil => exact absurd hq (hcuda rfl)
      | cons a l => rfl
    cases henv : s.cublasEnv with
    | none =>
      simp [hpy', hnp', hc', henv]
      constructor <;> split <;> simp
    | some e =>
      by_cases he : e.isEmpty <;>
        simp [hpy', hnp', hc', henv, he] <;>
        constructor <;> try constructor
      all_goals (first | rfl | (split <;> simp))

theorem filterMap_mkSharedLayers (hs : List ℕ) :
    ∀ p : ℕ, (mkSharedLayers p hs).filterMap linearOutFeatures = hs := by
  induction hs with
  | nil => intro p; rfl
  | cons h t ih =>
    intro p
    simp [mkSharedLayers, List.filterMap_cons, linearOutFeatures, ih]

/-- Claim C9: for every model (with at least one hidden layer, as built by
`QuantileNet`), calibration offset `Q` and scaler payload, saving the
checkpoint and loading it back reconstructs exactly the original model
(architecture recovered from the saved `input_dim`/`hidden_dims`, parameters
and buffers overwritten by the saved state dict), the same `Q` and the same
scalers — hence any forward semantics `F`, as a function of the model,
produces identical predictions on every input before saving and after
loading. -/
theorem C9_save_load_roundtrip {S : Type} (m : QuantileNetModel) (Q : ℚ)
    (scalers : S) (initSD : ℕ → List ℕ → List (String × List ℚ))
    (h : m.hiddenDims ≠ []) :
    (save_model m Q scalers).map (load_model initSD) = some (m, Q, scalers) ∧
      ∀ (F : QuantileNetModel → ℚ → ℚ × ℚ) (x : ℚ),
        (save_model m Q scalers).map (fun c => F (load_model initSD c).1 x)
          = some (F m x) := by
  obtain ⟨d, t, hm⟩ := List.exists_cons_of_ne_nil h
  have hsave : save_model m Q scalers
      = some ⟨m.stateDict, Q, scalers, m.inputDim, m.hiddenDims⟩ := by
    unfold save_model sharedLayersOf
    rw [hm]
    simp [mkSharedLayers, inFeaturesOf, List.filterMap_cons, linearOutFeatures,
      filterMap_mkSharedLayers]
  rw [hsave]
  exact ⟨rfl, fun F x => rfl⟩

/-- Witness for C9 at a concrete two-hidden-layer model. -/
theorem C9_save_load_roundtrip_witness :
    (([64, 64] : List ℕ) ≠ []) ∧
      ((save_model (⟨11, [64, 64], [("k", [1, 2])]⟩ : QuantileNetModel)
            (3 / 2) (5 : ℕ)).map (load_model (fun _ _ => []))
          = some (⟨11, [64, 64], [("k", [1, 2])]⟩, 3 / 2, 5) ∧
        ∀ (F : QuantileNetModel → ℚ → ℚ × ℚ) (x : ℚ),
          (save_model (⟨11, [64, 64], [("k", [1, 2])]⟩ : QuantileNetModel)
              (3 / 2) (5 : ℕ)).map
              (fun c => F (load_model (fun _ _ => []) c).1 x)
            = some (F ⟨11, [64, 64], [("k", [1, 2])]⟩ x)) :=
  ⟨by decide, C9_save_load_roundtrip ⟨11, [64, 64], [("k", [1, 2])]⟩ (3 / 2)
    (5 : ℕ) (fun _ _ => []) (by decide)⟩

/-- Witness for C8: a CUDA-available run whose body overwrites all four RNG
states; the context restores each of them. -/
theorem C8_rng_state_restored_witness :
    (([1] : List Int) ≠ []) ∧ (([2] : List Int) ≠ []) ∧
      ((true = true) → (([[4]] : List (List Int)) ≠ [])) ∧
      ((runWithContext true true (fun n => [(n : Int)]) (fun n => [(n : Int)])
          (fun n => [(n : Int)]) (fun n => [[(n : Int)]]) 7
          (fun st => { st with pythonState := [99], numpyState := [98],
                               torchState := [97], cudaStates := [[96]] })
          ⟨[1], [2], [3], [[4]], false, none⟩).pythonState
          = (⟨[1], [2], [3], [[4]], false, none⟩ : RNGState).pythonState ∧
        (runWithContext true true (fun n => [(n : Int)]) (fun n => [(n : Int)])
          (fun n => [(n : Int)]) (fun n => [[(n : Int)]]) 7
          (fun st => { st with pythonState := [99], numpyState := [98],
                               torchState := [97], cudaStates := [[96]] })
          ⟨[1], [2], [3], [[4]], false, none⟩).numpyState
          = (⟨[1], [2], [3], [[4]], false, none⟩ : RNGState).numpyState ∧
        (runWithContext true true (fun n => [(n : Int)]) (fun n => [(n : Int)])
          (fun n => [(n : Int)]) (fun n => [[(n : Int)]]) 7
          (fun st => { st with pythonState := [99], numpyState := [98],
                               torchState := [97], cudaStates := [[96]] })
          ⟨[1], [2], [3], [[4]], false, none⟩).torchState
          = (⟨[1], [2], [3], [[4]], false, none⟩ : RNGState).torchState ∧
        (true = true →
          (runWithContext true true (fun n => [(n : Int)]) (fun n => [(n : Int)])
            (fun n => [(n : Int)]) (fun n => [[(n : Int)]]) 7
            (fun st => { st with pythonState := [99], numpyState := [98],
                                 torchState := [97], cudaStates := [[96]] })
            ⟨[1], [2], [3], [[4]], false, none⟩).cudaStates
            = (⟨[1], [2], [3], [[4]], false, none⟩ : RNGState).cudaStates)) :=
  ⟨by decide, by decide, by decide,
    C8_rng_state_restored true true (fun n => [(n : Int)]) (fun n => [(n : Int)])
      (fun n => [(n : Int)]) (fun n => [[(n : Int)]]) 7
      (fun st => { st with pythonState := [99], numpyState := [98],
                           torchState := [97], cudaStates := [[96]] })
      ⟨[1], [2], [3], [[4]], false, none⟩
      (by decide) (by decide) (by decide)⟩
